import Mathlib

/-!
Verification development for the spike-mastodon command-line client
(src/src/main.rs): the credential bootstrap flow and the bidirectional
cursor-paginated timeline fetch engine.

Pure control flow is translated directly from src/src/main.rs.  Behaviour
that lives in external collaborators (the mastodon-async library's `Page`
pagination, its TOML credential codec, the `directories` crate's path
resolution, the network) is modelled from the specification, with each such
definition's doc comment starting `Modelled from the spec:`.
-/

set_option autoImplicit false

deriving instance DecidableEq for Except

namespace SpikeMastodon

/-! ## Timeline data model -/

/-- A timeline status item.  The remote-defined fields other than `uri` are
opaque to this core, so only `uri` is modelled. -/
structure StatusItem where
  uri : String
deriving DecidableEq, Repr

/-- The state of `mastodon_async::page::Page<Status>` as used by
src/src/main.rs: the items of the last successful fetch plus the optional
next/prev page locators.  The locator type is abstract (`σ`) because the
client code never inspects locator contents (it only clones them for
logging). -/
structure Page (σ : Type) where
  items : List StatusItem
  next : Option σ
  prev : Option σ
deriving DecidableEq, Repr

/-- Modelled from the spec: a single server response to a timeline fetch by
locator — an item list plus optional next/prev locators for the new
position. -/
structure FetchResponse (σ : Type) where
  items : List StatusItem
  next : Option σ
  prev : Option σ
deriving DecidableEq, Repr

/-- Modelled from the spec: the remote feed, as a function from locator to
response; `none` is a transport/auth failure (`FetchError`). -/
def Feed (σ : Type) : Type := σ → Option (FetchResponse σ)

/-- Errors surfaced by the timeline page wrappers in src/src/main.rs:
`noNextPage`/`noPrevPage` are the `context("no next page")` /
`context("no prev page")` errors raised when the locator is absent, and
`fetchFailed` is a failed fetch (`Couldn't get next/prev page`). -/
inductive PageError
  | noNextPage
  | noPrevPage
  | fetchFailed
deriving DecidableEq, Repr

/-- Modelled from the spec: the mastodon-async page step for a present
locator — fetch by that locator and, on success, replace `items` and both
locators with what the response indicates; on transport failure the cursor
is left unchanged. -/
def fetchByLocator {σ : Type} (feed : Feed σ) (loc : σ) (p : Page σ) :
    Page σ × Except PageError (List StatusItem) :=
  match feed loc with
  | none => (p, Except.error PageError.fetchFailed)
  | some r => ({ items := r.items, next := r.next, prev := r.prev }, Except.ok r.items)

/-- From src/src/main.rs `load_next_page`: first extracts the next-page URL
with `timeline.next.clone().context("no next page")?` — which errors when
the locator is absent — then fetches the next page. Returns the resulting
cursor state together with the outcome. -/
def load_next_page {σ : Type} (feed : Feed σ) (p : Page σ) :
    Page σ × Except PageError Unit :=
  match p.next with
  | none => (p, Except.error PageError.noNextPage)
  | some url =>
    match fetchByLocator feed url p with
    | (p2, Except.ok _) => (p2, Except.ok ())
    | (p2, Except.error e) => (p2, Except.error e)

/-- From src/src/main.rs `load_prev_page`: first extracts the prev-page URL
with `timeline.prev.clone().context("no prev page")?` — which errors when
the locator is absent — then fetches the previous page. -/
def load_prev_page {σ : Type} (feed : Feed σ) (p : Page σ) :
    Page σ × Except PageError Unit :=
  match p.prev with
  | none => (p, Except.error PageError.noPrevPage)
  | some url =>
    match fetchByLocator feed url p with
    | (p2, Except.ok _) => (p2, Except.ok ())
    | (p2, Except.error e) => (p2, Except.error e)

/-- The traversal direction of the spec's `advance(direction)`. -/
inductive Direction
  | next
  | prev
deriving DecidableEq, Repr

/-- The locator a direction consults. -/
def Page.locator {σ : Type} (p : Page σ) : Direction → Option σ
  | Direction.next => p.next
  | Direction.prev => p.prev

/-- The error src/src/main.rs raises when the locator for a direction is
absent. -/
def noLocatorError : Direction → PageError
  | Direction.next => PageError.noNextPage
  | Direction.prev => PageError.noPrevPage

/-- The spec's `advance(direction)` as implemented by the repository:
`load_next_page` for `Next`, `load_prev_page` for `Prev`. -/
def advance {σ : Type} (feed : Feed σ) (d : Direction) (p : Page σ) :
    Page σ × Except PageError Unit :=
  match d with
  | Direction.next => load_next_page feed p
  | Direction.prev => load_prev_page feed p

/-- The concrete start-of-feed cursor of the spec's scenario: items
`[A,B,C]`, a next locator, no prev locator. -/
def pageStart : Page Nat :=
  { items := [⟨"A"⟩, ⟨"B"⟩, ⟨"C"⟩], next := some 1, prev := none }

/-- A feed with no reachable pages (every fetch is a transport failure);
irrelevant for absent-locator cases, which never consult the feed. -/
def emptyFeed : Feed Nat := fun _ => none

/-- Modelled from the spec: a stationary underlying feed, as an ordered list
of pages (newest first).  Locators are page indices; page `i` links forward
(next, towards older items) to `i + 1` when that page exists and backward
(prev) to `i - 1` when `i > 0`.  Per the spec's concrete scenario the newest
page carries no prev locator. -/
def feedOf (pages : List (List StatusItem)) : Feed Nat := fun i =>
  match pages[i]? with
  | none => none
  | some items =>
      some { items := items,
             next := if i + 1 < pages.length then some (i + 1) else none,
             prev := if i = 0 then none else some (i - 1) }

/-- Modelled from the spec: `fetchInitial` (`get_home_timeline` in
src/src/main.rs) against the stationary feed — a single unconditional
request returning the newest page; it fails only when the feed is entirely
empty. -/
def fetchInitial (pages : List (List StatusItem)) : Option (Page Nat) :=
  match feedOf pages 0 with
  | none => none
  | some r => some { items := r.items, next := r.next, prev := r.prev }

/-- A concrete two-page stationary feed for witnesses: the newest page holds
A, B, C and the older page holds D, E. -/
def pagesExample : List (List StatusItem) :=
  [[⟨"A"⟩, ⟨"B"⟩, ⟨"C"⟩], [⟨"D"⟩, ⟨"E"⟩]]

/-! ## Credential data model and store -/

/-- The persisted access credential (the spec's `Credential`, carried by the
mastodon-async `Data` record in src/src/main.rs): server base URL, client
id and secret, access token, granted scopes. -/
structure Credential where
  serverBaseUrl : String
  clientId : String
  clientSecret : String
  accessToken : String
  grantedScopes : List String
deriving DecidableEq, Repr

/-- The fixed application identifier `("com", "joshka", "mastodon-async")`
passed to `ProjectDirs::from` in src/src/main.rs `config_folder`. -/
structure AppId where
  qualifier : String
  organization : String
  application : String
deriving DecidableEq, Repr

/-- The one application identifier the program ever uses. -/
def appId : AppId := ⟨"com", "joshka", "mastodon-async"⟩

/-- Modelled from the spec: the `directories` crate resolving a per-OS
config directory from an application identifier; `none` means the path
could not be determined. -/
def Resolver : Type := AppId → Option String

/-- The failure of src/src/main.rs `config_folder`
(`Couldn't determine config folder path`). -/
inductive CfgError
  | noConfigDir
deriving DecidableEq, Repr

/-- From src/src/main.rs `config_folder`: resolves the config directory for
the fixed `appId`. -/
def config_folder (resolve : Resolver) : Except CfgError String :=
  match resolve appId with
  | none => Except.error CfgError.noConfigDir
  | some p => Except.ok p

/-- Modelled from the spec: on-disk content of a file — either TOML that
parses into a complete `Credential`, or bytes that do not parse. -/
inductive FileContent
  | cred (c : Credential)
  | garbage (raw : String)
deriving DecidableEq, Repr

/-- The file-system state the credential store touches: the set of existing
directories and the files by path. -/
structure FS where
  dirs : List String
  files : List (String × FileContent)
deriving DecidableEq, Repr

/-- Look a file up by path. -/
def lookupFile (path : String) (files : List (String × FileContent)) :
    Option FileContent :=
  (files.find? fun kv => kv.1 == path).map Prod.snd

/-- Write a file at a path, overwriting any prior content there. -/
def setFile (path : String) (content : FileContent)
    (files : List (String × FileContent)) : List (String × FileContent) :=
  (path, content) :: files.filter fun kv => !(kv.1 == path)

/-- Modelled from the spec: `std::fs::create_dir_all` — creates the
directory, succeeding with no change when it already exists. -/
def create_dir_all (d : String) (fs : FS) : FS :=
  if d ∈ fs.dirs then fs else { fs with dirs := d :: fs.dirs }

/-- The fixed credential file name joined onto the config folder. -/
def credentialFileName : String := "credentials.toml"

/-- The errors of src/src/main.rs `load_credentials`: the config folder may
be unresolvable, the file may be missing (`NotFound`), or it may exist but
fail to parse (`Corrupt`); both file errors are wrapped with the
`cannot load file` context. -/
inductive LoadError
  | noConfigDir
  | notFound
  | corrupt
deriving DecidableEq, Repr

/-- From src/src/main.rs `load_credentials`: resolves the config folder,
joins `credentials.toml` and parses the file there. -/
def load_credentials (resolve : Resolver) (fs : FS) :
    Except LoadError Credential :=
  match resolve appId with
  | none => Except.error LoadError.noConfigDir
  | some folder =>
    match lookupFile (folder ++ "/" ++ credentialFileName) fs.files with
    | none => Except.error LoadError.notFound
    | some (FileContent.garbage _) => Except.error LoadError.corrupt
    | some (FileContent.cred c) => Except.ok c

/-- From src/src/main.rs `save_credentials`: resolves the config folder,
creates it with `create_dir_all`, then writes the credential file at
`folder/credentials.toml`, overwriting any prior content. -/
def save_credentials (resolve : Resolver) (c : Credential) (fs : FS) :
    FS × Except CfgError Unit :=
  match resolve appId with
  | none => (fs, Except.error CfgError.noConfigDir)
  | some folder =>
    let fs1 := create_dir_all folder fs
    let path := folder ++ "/" ++ credentialFileName
    ({ dirs := fs1.dirs, files := setFile path (FileContent.cred c) fs1.files },
      Except.ok ())

/-! ## Authorization flow -/

/-- The OAuth client registration request built by src/src/main.rs
`register`: the user-supplied server name plus fixed client name, redirect
target, scopes and website. -/
structure RegistrationRequest where
  serverName : String
  clientName : String
  redirectUris : String
  scopes : String
  website : String
deriving DecidableEq, Repr

/-- Modelled from the spec: mastodon-async `Scopes::read_all()`, the
"read everything" scope set (displayed as `read`). -/
def readAllScopes : String := "read"

/-- The request `register` issues for a given server name. -/
def registrationRequest (server_name : String) : RegistrationRequest :=
  { serverName := server_name
    clientName := "joshka-mastodon-async"
    redirectUris := "urn:ietf:wg:oauth:2.0:oob"
    scopes := readAllScopes
    website := "https://github.com/joshka/mastodon-async" }

/-- Modelled from the spec: the mastodon-async `Registered` state a
successful client registration returns (the parts src/src/main.rs logs). -/
structure Registered where
  base : String
  clientId : String
  clientSecret : String
  redirect : String
  scopes : String
deriving DecidableEq, Repr

/-- Modelled from the spec: the remote server's response to a registration
request; `none` means the server rejected it or was unreachable. -/
def RegResponder : Type := RegistrationRequest → Option Registered

/-- The failure of src/src/main.rs `register`
(`Couldn't register app`). -/
inductive RegError
  | registrationFailed
deriving DecidableEq, Repr

/-- From src/src/main.rs `register`: builds the request with the fixed
client name, redirect target and scopes, submits it, and wraps a failure in
the `Couldn't register app` context.  Returns the request issued together
with the outcome. -/
def register (respond : RegResponder) (server_name : String) :
    RegistrationRequest × Except RegError Registered :=
  let req := registrationRequest server_name
  match respond req with
  | none => (req, Except.error RegError.registrationFailed)
  | some r => (req, Except.ok r)

/-- The errors of src/src/main.rs `authenticate`: the authorize URL may be
unavailable, the browser may fail to open (`opening browser`), or the
out-of-band code exchange may fail (`Couldn't authenticate`). -/
inductive AuthError
  | noAuthorizeUrl
  | browserOpen
  | exchangeFailed
deriving DecidableEq, Repr

/-- The outcome of `webbrowser::open` on the authorization URL. -/
inductive BrowserOutcome
  | opened
  | failed
deriving DecidableEq, Repr

/-- The external outcomes `authenticate` depends on: the authorization URL
construction, the browser open, and the out-of-band code exchange
(`helpers::cli::authenticate`), which yields a full credential or is
rejected. -/
structure AuthEnv where
  authorizeUrl : Option String
  browser : BrowserOutcome
  oobExchange : Option Credential
deriving DecidableEq, Repr

/-- From src/src/main.rs `authenticate`: obtains the authorization URL,
then runs `webbrowser::open(&url).context("opening browser")?` — whose
failure the question-mark operator propagates — and only then drives the
out-of-band code exchange. -/
def authenticate (env : AuthEnv) : Except AuthError Credential :=
  match env.authorizeUrl with
  | none => Except.error AuthError.noAuthorizeUrl
  | some _url =>
    match env.browser with
    | BrowserOutcome.failed => Except.error AuthError.browserOpen
    | BrowserOutcome.opened =>
      match env.oobExchange with
      | none => Except.error AuthError.exchangeFailed
      | some c => Except.ok c

/-! ## Server-name input -/

/-- Rust `char::is_whitespace`: the Unicode White_Space property. -/
def rustIsWhitespace (c : Char) : Bool :=
  decide ((0x09 ≤ c.toNat ∧ c.toNat ≤ 0x0D) ∨ c.toNat = 0x20 ∨
    c.toNat = 0x85 ∨ c.toNat = 0xA0 ∨ c.toNat = 0x1680 ∨
    (0x2000 ≤ c.toNat ∧ c.toNat ≤ 0x200A) ∨ c.toNat = 0x2028 ∨
    c.toNat = 0x2029 ∨ c.toNat = 0x202F ∨ c.toNat = 0x205F ∨
    c.toNat = 0x3000)

/-- Rust `str::trim` on a character list: removes leading and trailing
characters with the Unicode White_Space property. -/
def rustTrim (s : List Char) : List Char :=
  ((s.dropWhile rustIsWhitespace).reverse.dropWhile rustIsWhitespace).reverse

/-- The failure of src/src/main.rs `get_server_name`
(`failed to read input`). -/
inductive InputError
  | readFailed
deriving DecidableEq, Repr

/-- From src/src/main.rs `get_server_name`: prompts on stdout, reads one
line from stdin (`none` models a read failure) and returns
`input.trim().to_owned()`. -/
def get_server_name (stdinLine : Option (List Char)) :
    Except InputError (List Char) :=
  match stdinLine with
  | none => Except.error InputError.readFailed
  | some line => Except.ok (rustTrim line)

/-! ## The run orchestration -/

/-- The external world a whole run depends on. -/
structure RunEnv where
  resolve : Resolver
  fs : FS
  stdinLine : Option (List Char)
  respond : RegResponder
  auth : AuthEnv
  verifyOk : Bool
  timelineOk : Bool

/-- The error a failed `run` carries. -/
inductive RunError
  | inputFailed
  | registrationFailed
  | authenticationFailed (e : AuthError)
  | saveFailed (e : CfgError)
  | verifyFailed
  | timelineFailed
deriving DecidableEq, Repr

/-- File, network and log events observable during a run.
`netRegister` records the server name the registration was issued for. -/
inductive Event
  | readCredFile
  | loggedLoadFailure (e : LoadError)
  | promptServer
  | netRegister (server_name : String)
  | netAuthenticate
  | writeCredFile
  | netVerify
  | netTimeline
  | loggedRunError (e : RunError)
deriving DecidableEq, Repr

/-- The tail of src/src/main.rs `run` once an authenticated client exists:
`verify_credentials` then `show_timeline`, both network phases. -/
def runVerified (env : RunEnv) (evs : List Event) :
    Except RunError Unit × List Event :=
  if env.verifyOk then
    if env.timelineOk then
      (Except.ok (), evs ++ [Event.netVerify, Event.netTimeline])
    else
      (Except.error RunError.timelineFailed, evs ++ [Event.netVerify, Event.netTimeline])
  else (Except.error RunError.verifyFailed, evs ++ [Event.netVerify])

/-- From src/src/main.rs `run`: load the stored credentials; on failure log
the reason at info level (`No credentials found. ...`) and bootstrap —
prompt for the server name, register, authenticate, save — then verify the
credentials and traverse the timeline.  Returns the outcome together with
the trace of file, network and log events. -/
def run (env : RunEnv) : Except RunError Unit × List Event :=
  match load_credentials env.resolve env.fs with
  | Except.ok _data => runVerified env [Event.readCredFile]
  | Except.error reason =>
    let evs0 := [Event.readCredFile, Event.loggedLoadFailure reason,
      Event.promptServer]
    match get_server_name env.stdinLine with
    | Except.error _ => (Except.error RunError.inputFailed, evs0)
    | Except.ok name =>
      let evs1 := evs0 ++ [Event.netRegister (String.mk name)]
      match (register env.respond (String.mk name)).2 with
      | Except.error _ => (Except.error RunError.registrationFailed, evs1)
      | Except.ok _reg =>
        let evs2 := evs1 ++ [Event.netAuthenticate]
        match authenticate env.auth with
        | Except.error e => (Except.error (RunError.authenticationFailed e), evs2)
        | Except.ok cred =>
          let evs3 := evs2 ++ [Event.writeCredFile]
          match (save_credentials env.resolve cred env.fs).2 with
          | Except.error e => (Except.error (RunError.saveFailed e), evs3)
          | Except.ok _ => runVerified env evs3

/-- From src/src/main.rs `main`: runs `run` and, on error, logs the error
diagnostic (`error!(?err, "error")`) instead of propagating it. -/
def mainEntry (env : RunEnv) : List Event :=
  match run env with
  | (Except.ok _, evs) => evs
  | (Except.error e, evs) => evs ++ [Event.loggedRunError e]

/-! ## Concrete fixtures for witnesses and counterexamples -/

/-- A sample full credential. -/
def credExample : Credential :=
  ⟨"https://mastodon.example", "cid", "csecret", "tok", ["read"]⟩

/-- A resolver that always finds the config folder `/cfg`. -/
def resolveExample : Resolver := fun _ => some "/cfg"

/-- An empty file system: no directories, no files. -/
def fsEmpty : FS := ⟨[], []⟩

/-- A file system whose credential file exists but does not parse. -/
def fsCorrupt : FS :=
  ⟨["/cfg"], [("/cfg/credentials.toml", FileContent.garbage "not toml")]⟩

/-- A run environment in which the stored credential is absent and every
bootstrap step succeeds. -/
def envBootstrapOk : RunEnv :=
  { resolve := resolveExample
    fs := fsEmpty
    stdinLine := some ['m', 's', '\n']
    respond := fun _ =>
      some ⟨"https://ms", "cid", "sec", "urn:ietf:wg:oauth:2.0:oob", "read"⟩
    auth := ⟨some "https://ms/auth", BrowserOutcome.opened, some credExample⟩
    verifyOk := true
    timelineOk := true }

/-- A run environment in which the stored credential is absent and the
registration request fails. -/
def envRegFail : RunEnv :=
  { resolve := resolveExample
    fs := fsEmpty
    stdinLine := some ['m', 's', '\n']
    respond := fun _ => none
    auth := ⟨some "https://ms/auth", BrowserOutcome.opened, some credExample⟩
    verifyOk := true
    timelineOk := true }

end SpikeMastodon

namespace SpikeMastodon

/-! ## Claim theorems -/

/-- C1: counterexample.  At the concrete start-of-feed cursor (prev locator
absent) the repository's `advance(Prev)` (`load_prev_page`) does NOT return
success: it fails with the `no prev page` error, contradicting the claim
that advancing with an absent locator returns success. -/
theorem C1_counterexample :
    pageStart.locator Direction.prev = none ∧
    (advance emptyFeed Direction.prev pageStart).2 ≠ Except.ok () ∧
    (advance emptyFeed Direction.prev pageStart).2 =
      Except.error PageError.noPrevPage := by
  decide

/-- C1 (amended): for every cursor state in which the locator for the
requested direction is absent, `advance` in that direction leaves `items`,
`nextLocator` and `prevLocator` entirely unchanged, but returns the
`no next page` / `no prev page` error rather than success. -/
theorem C1_absent_locator_unchanged_but_error {σ : Type} (feed : Feed σ)
    (d : Direction) (p : Page σ) (h : p.locator d = none) :
    advance feed d p = (p, Except.error (noLocatorError d)) := by
  cases d <;>
    simp only [Page.locator] at h <;>
    simp [advance, load_next_page, load_prev_page, noLocatorError, h]

/-- C1 witness: the amended theorem applied at the concrete start-of-feed
cursor. -/
theorem C1_witness :
    advance emptyFeed Direction.prev pageStart =
      (pageStart, Except.error (noLocatorError Direction.prev)) :=
  C1_absent_locator_unchanged_but_error emptyFeed Direction.prev pageStart (by decide)

/-- C2: fetching the initial page, then advancing `Next` once, then
advancing `Prev` once over a stationary feed yields a cursor whose items
equal the initial page's items. -/
theorem C2_round_trip (pages : List (List StatusItem)) (p0 : Page Nat)
    (h : fetchInitial pages = some p0) :
    (load_prev_page (feedOf pages) (load_next_page (feedOf pages) p0).1).1.items
      = p0.items := by
  rcases h0 : pages[0]? with _ | items0
  · simp [fetchInitial, feedOf, h0] at h
  · have hp0 : p0 = Page.mk items0
        (if 0 + 1 < pages.length then some (0 + 1) else none) none := by
      simp [fetchInitial, feedOf, h0] at h
      exact h.symm
    subst hp0
    by_cases h1 : 0 + 1 < pages.length
    · have h1e := List.getElem?_eq_getElem (show 1 < pages.length by omega)
      simp [load_next_page, load_prev_page, fetchByLocator, feedOf, h0, h1, h1e]
    · simp [load_next_page, load_prev_page, fetchByLocator, feedOf, h1]

/-- C2 witness: the round trip applied to the concrete two-page feed, whose
initial page is the concrete start-of-feed cursor. -/
theorem C2_witness :
    (load_prev_page (feedOf pagesExample)
        (load_next_page (feedOf pagesExample) pageStart).1).1.items
      = pageStart.items :=
  C2_round_trip pagesExample pageStart (by decide)

/-- C3: counterexample.  With a valid authorization URL, a browser that
fails to open, and an out-of-band exchange that would succeed,
`authenticate` aborts with the browser-open error: the browser failure is
fatal, contradicting the claim that it is non-fatal and that
authentication can still complete via the out-of-band code entry. -/
theorem C3_counterexample :
    authenticate ⟨some "https://ms/auth", BrowserOutcome.failed, some credExample⟩
        = Except.error AuthError.browserOpen ∧
    (authenticate ⟨some "https://ms/auth", BrowserOutcome.failed,
        some credExample⟩).isOk = false := by
  decide

/-- C3 (amended): a failure to open the browser on the authorization URL is
fatal: for every URL and every pending exchange outcome, `authenticate`
propagates the browser-open error, so the flow never reaches the
out-of-band code entry. -/
theorem C3_browser_failure_fatal (url : String) (x : Option Credential) :
    authenticate ⟨some url, BrowserOutcome.failed, x⟩
      = Except.error AuthError.browserOpen := rfl

/-- Writing a file then looking it up at the same path yields exactly the
written content. -/
theorem lookupFile_setFile (path : String) (content : FileContent)
    (files : List (String × FileContent)) :
    lookupFile path (setFile path content files) = some content := by
  simp [lookupFile, setFile, List.find?]

/-- The three possible outcomes of the verification-and-timeline tail of a
run. -/
theorem runVerified_cases (env : RunEnv) (evs : List Event) :
    runVerified env evs
        = (Except.ok (), evs ++ [Event.netVerify, Event.netTimeline]) ∨
    runVerified env evs
        = (Except.error RunError.timelineFailed,
            evs ++ [Event.netVerify, Event.netTimeline]) ∨
    runVerified env evs
        = (Except.error RunError.verifyFailed, evs ++ [Event.netVerify]) := by
  unfold runVerified
  by_cases hv : env.verifyOk
  · by_cases ht : env.timelineOk <;> simp [hv, ht]
  · simp [hv]

/-- Exhaustive case analysis of a run: the credential-load success path and
the five bootstrap outcomes, each with its exact event trace. -/
theorem run_cases (env : RunEnv) :
    (∃ c, load_credentials env.resolve env.fs = Except.ok c ∧
      run env = runVerified env [Event.readCredFile]) ∨
    (∃ e, load_credentials env.resolve env.fs = Except.error e ∧
      env.stdinLine = none ∧
      run env = (Except.error RunError.inputFailed,
        [Event.readCredFile, Event.loggedLoadFailure e, Event.promptServer])) ∨
    (∃ e line, load_credentials env.resolve env.fs = Except.error e ∧
      env.stdinLine = some line ∧
      env.respond (registrationRequest (String.mk (rustTrim line))) = none ∧
      run env = (Except.error RunError.registrationFailed,
        [Event.readCredFile, Event.loggedLoadFailure e, Event.promptServer,
          Event.netRegister (String.mk (rustTrim line))])) ∨
    (∃ e line reg ea, load_credentials env.resolve env.fs = Except.error e ∧
      env.stdinLine = some line ∧
      env.respond (registrationRequest (String.mk (rustTrim line))) = some reg ∧
      authenticate env.auth = Except.error ea ∧
      run env = (Except.error (RunError.authenticationFailed ea),
        [Event.readCredFile, Event.loggedLoadFailure e, Event.promptServer,
          Event.netRegister (String.mk (rustTrim line)), Event.netAuthenticate])) ∨
    (∃ e line reg c ec, load_credentials env.resolve env.fs = Except.error e ∧
      env.stdinLine = some line ∧
      env.respond (registrationRequest (String.mk (rustTrim line))) = some reg ∧
      authenticate env.auth = Except.ok c ∧
      (save_credentials env.resolve c env.fs).2 = Except.error ec ∧
      run env = (Except.error (RunError.saveFailed ec),
        [Event.readCredFile, Event.loggedLoadFailure e, Event.promptServer,
          Event.netRegister (String.mk (rustTrim line)), Event.netAuthenticate,
          Event.writeCredFile])) ∨
    (∃ e line reg c, load_credentials env.resolve env.fs = Except.error e ∧
      env.stdinLine = some line ∧
      env.respond (registrationRequest (String.mk (rustTrim line))) = some reg ∧
      authenticate env.auth = Except.ok c ∧
      (save_credentials env.resolve c env.fs).2 = Except.ok () ∧
      run env = runVerified env
        [Event.readCredFile, Event.loggedLoadFailure e, Event.promptServer,
          Event.netRegister (String.mk (rustTrim line)), Event.netAuthenticate,
          Event.writeCredFile]) := by
  cases hl : load_credentials env.resolve env.fs with
  | ok c =>
    exact Or.inl ⟨c, rfl, by simp [run, hl]⟩
  | error e =>
    cases hs : env.stdinLine with
    | none =>
      exact Or.inr (Or.inl ⟨e, rfl, rfl, by simp [run, hl, get_server_name, hs]⟩)
    | some line =>
      cases hr : env.respond (registrationRequest (String.mk (rustTrim line))) with
      | none =>
        refine Or.inr (Or.inr (Or.inl ⟨e, line, rfl, rfl, hr, ?_⟩))
        simp [run, hl, get_server_name, hs, register, hr]
      | some reg =>
        cases ha : authenticate env.auth with
        | error ea =>
          refine Or.inr (Or.inr (Or.inr (Or.inl ⟨e, line, reg, ea, rfl, rfl, hr, rfl, ?_⟩)))
          simp [run, hl, get_server_name, hs, register, hr, ha]
        | ok c =>
          cases hsave : (save_credentials env.resolve c env.fs).2 with
          | error ec =>
            refine Or.inr (Or.inr (Or.inr (Or.inr (Or.inl
              ⟨e, line, reg, c, ec, rfl, rfl, hr, rfl, hsave, ?_⟩))))
            simp [run, hl, get_server_name, hs, register, hr, ha, hsave]
          | ok u =>
            refine Or.inr (Or.inr (Or.inr (Or.inr (Or.inr
              ⟨e, line, reg, c, rfl, rfl, hr, rfl, hsave, ?_⟩))))
            simp [run, hl, get_server_name, hs, register, hr, ha, hsave]

/-- C6: for every credential `c`, `save c` followed by `load` returns a
credential equal to `c` in all fields. -/
theorem C6_credential_round_trip (resolve : Resolver) (folder : String)
    (c : Credential) (fs : FS) (h : resolve appId = some folder) :
    load_credentials resolve (save_credentials resolve c fs).1
      = Except.ok c := by
  simp [load_credentials, save_credentials, h, lookupFile_setFile]

/-- C6 witness: the round trip at a concrete credential, resolver and empty
file system. -/
theorem C6_witness :
    load_credentials resolveExample
        (save_credentials resolveExample credExample fsEmpty).1
      = Except.ok credExample :=
  C6_credential_round_trip resolveExample "/cfg" credExample fsEmpty rfl

/-- C7: `save` succeeds, creating the config directory idempotently (it is
present afterwards, and nothing changes when it already existed) and
writing the credential file at `folder/credentials.toml` — overwriting any
prior content there — where the folder comes from resolving the fixed
`appId`, independent of the credential and of the prior file-system
state. -/
theorem C7_save_creates_dir_then_overwrites (resolve : Resolver)
    (folder : String) (c : Credential) (fs : FS)
    (h : resolve appId = some folder) :
    (save_credentials resolve c fs).2 = Except.ok () ∧
    folder ∈ (save_credentials resolve c fs).1.dirs ∧
    (folder ∈ fs.dirs → (save_credentials resolve c fs).1.dirs = fs.dirs) ∧
    lookupFile (folder ++ "/" ++ credentialFileName)
        (save_credentials resolve c fs).1.files
      = some (FileContent.cred c) := by
  by_cases hd : folder ∈ fs.dirs <;>
    simp [save_credentials, h, create_dir_all, hd, lookupFile_setFile]

/-- C7 witness: saving over an existing config directory leaves the
directory set unchanged. -/
theorem C7_witness :
    (save_credentials resolveExample credExample fsCorrupt).1.dirs
      = fsCorrupt.dirs :=
  (C7_save_creates_dir_then_overwrites resolveExample "/cfg" credExample
    fsCorrupt rfl).2.2.1 (by decide)

/-- C8: for every server name, the registration request carries that server
name, the fixed client name, the fixed out-of-band redirect target and the
read-everything scope set; and when the server rejects the request or is
unreachable, `register` fails with the registration error. -/
theorem C8_register_fixed_request (respond : RegResponder)
    (server_name : String) :
    (register respond server_name).1.serverName = server_name ∧
    (register respond server_name).1.clientName = "joshka-mastodon-async" ∧
    (register respond server_name).1.redirectUris = "urn:ietf:wg:oauth:2.0:oob" ∧
    (register respond server_name).1.scopes = readAllScopes ∧
    (respond (registrationRequest server_name) = none →
      (register respond server_name).2 = Except.error RegError.registrationFailed) := by
  have h1 : (register respond server_name).1 = registrationRequest server_name := by
    unfold register
    cases h2 : respond (registrationRequest server_name) <;> simp [h2]
  refine ⟨by rw [h1]; rfl, by rw [h1]; rfl, by rw [h1]; rfl, by rw [h1]; rfl,
    fun h => ?_⟩
  simp [register, h]

/-- C8 witness: registration against an unreachable server at a concrete
server name fails with the registration error. -/
theorem C8_witness :
    (register (fun _ => none) "mastodon.example").2
      = Except.error RegError.registrationFailed :=
  (C8_register_fixed_request (fun _ => none) "mastodon.example").2.2.2.2 rfl

/-- C4: with the config folder resolved, `load_credentials` fails with
`notFound` when the credential file is missing and with the distinct
`corrupt` error when the file exists but cannot be parsed; a successful
load returns exactly the completely parsed stored credential (never a
partial one); and a corrupt result does not silently re-trigger
registration — the run logs the corrupt reason immediately after reading
the file, before any registration. -/
theorem C4_load_error_taxonomy (resolve : Resolver) (folder : String)
    (fs : FS) (h : resolve appId = some folder) :
    (lookupFile (folder ++ "/" ++ credentialFileName) fs.files = none →
      load_credentials resolve fs = Except.error LoadError.notFound) ∧
    (∀ raw, lookupFile (folder ++ "/" ++ credentialFileName) fs.files
          = some (FileContent.garbage raw) →
      load_credentials resolve fs = Except.error LoadError.corrupt) ∧
    LoadError.notFound ≠ LoadError.corrupt ∧
    (∀ c, load_credentials resolve fs = Except.ok c →
      lookupFile (folder ++ "/" ++ credentialFileName) fs.files
        = some (FileContent.cred c)) ∧
    (∀ env : RunEnv, env.resolve = resolve → env.fs = fs →
      load_credentials resolve fs = Except.error LoadError.corrupt →
      (run env).2.take 2
        = [Event.readCredFile, Event.loggedLoadFailure LoadError.corrupt]) := by
  refine ⟨fun hn => by simp [load_credentials, h, hn],
    fun raw hg => by simp [load_credentials, h, hg],
    by simp,
    fun c hc => ?_,
    fun env henvr henvf hcorr => ?_⟩
  · simp only [load_credentials, h] at hc
    rcases hlk : lookupFile (folder ++ "/" ++ credentialFileName) fs.files with
      _ | content
    · rw [hlk] at hc; simp at hc
    · rw [hlk] at hc
      cases content with
      | cred c2 => simp at hc; rw [hc]
      | garbage raw => simp at hc
  · have hload : load_credentials env.resolve env.fs
        = Except.error LoadError.corrupt := by rw [henvr, henvf]; exact hcorr
    rcases run_cases env with ⟨c, hc, _⟩ | ⟨e, he, _, hrun⟩ |
        ⟨e, line, he, _, _, hrun⟩ | ⟨e, line, reg, ea, he, _, _, _, hrun⟩ |
        ⟨e, line, reg, c, ec, he, _, _, _, _, hrun⟩ |
        ⟨e, line, reg, c, he, _, _, _, _, hrun⟩
    · rw [hload] at hc; exact absurd hc (by simp)
    · rw [hload] at he
      obtain rfl : LoadError.corrupt = e := by injection he
      simp [hrun]
    · rw [hload] at he
      obtain rfl : LoadError.corrupt = e := by injection he
      simp [hrun]
    · rw [hload] at he
      obtain rfl : LoadError.corrupt = e := by injection he
      simp [hrun]
    · rw [hload] at he
      obtain rfl : LoadError.corrupt = e := by injection he
      simp [hrun]
    · rw [hload] at he
      obtain rfl : LoadError.corrupt = e := by injection he
      rcases runVerified_cases env
          [Event.readCredFile, Event.loggedLoadFailure LoadError.corrupt,
            Event.promptServer,
            Event.netRegister (String.mk (rustTrim line)),
            Event.netAuthenticate, Event.writeCredFile] with hv | hv | hv <;>
        simp [hrun, hv]

/-- C4 witness: against a file system whose credential file exists but does
not parse, the load fails with the corrupt error. -/
theorem C4_witness :
    load_credentials resolveExample fsCorrupt
      = Except.error LoadError.corrupt :=
  (C4_load_error_taxonomy resolveExample "/cfg" fsCorrupt rfl).2.1
    "not toml" (by decide)

/-- No event occurs twice in a run's trace: no operation is retried. -/
theorem run_trace_nodup (env : RunEnv) : (run env).2.Nodup := by
  rcases run_cases env with ⟨c, hc, hrun⟩ | ⟨e, he, hs, hrun⟩ |
      ⟨e, line, he, hs, hr, hrun⟩ | ⟨e, line, reg, ea, he, hs, hr, ha, hrun⟩ |
      ⟨e, line, reg, c, ec, he, hs, hr, ha, hsv, hrun⟩ |
      ⟨e, line, reg, c, he, hs, hr, ha, hsv, hrun⟩
  · rcases runVerified_cases env [Event.readCredFile] with hv | hv | hv <;>
      simp [hrun, hv]
  · simp [hrun]
  · simp [hrun]
  · simp [hrun]
  · simp [hrun]
  · rcases runVerified_cases env
        [Event.readCredFile, Event.loggedLoadFailure e, Event.promptServer,
          Event.netRegister (String.mk (rustTrim line)), Event.netAuthenticate,
          Event.writeCredFile] with hv | hv | hv <;>
      simp [hrun, hv]

/-- C5: counterexample.  In the environment where the stored credential is
absent (so the load errors) and every bootstrap step succeeds, the run
completes successfully: a CredentialStore load error does NOT abort the
run, contradicting the claim that every CredentialStore error does. -/
theorem C5_counterexample :
    (load_credentials envBootstrapOk.resolve envBootstrapOk.fs).isOk = false ∧
    (run envBootstrapOk).1 = Except.ok () := by
  decide

/-- C5 (amended): a failure in `register`, `authenticate` or
`save_credentials` aborts the run with the corresponding error and `main`
logs the diagnostic; no operation is ever retried (every event occurs at
most once per run).  A failed credential load, by contrast, does not abort
the run: it triggers the bootstrap path. -/
theorem C5_bootstrap_errors_abort_without_retry (env : RunEnv) :
    (∀ line, env.stdinLine = some line →
      (load_credentials env.resolve env.fs).isOk = false →
      env.respond (registrationRequest (String.mk (rustTrim line))) = none →
      (run env).1 = Except.error RunError.registrationFailed) ∧
    (∀ line reg ea, env.stdinLine = some line →
      (load_credentials env.resolve env.fs).isOk = false →
      env.respond (registrationRequest (String.mk (rustTrim line))) = some reg →
      authenticate env.auth = Except.error ea →
      (run env).1 = Except.error (RunError.authenticationFailed ea)) ∧
    (∀ line reg c ec, env.stdinLine = some line →
      (load_credentials env.resolve env.fs).isOk = false →
      env.respond (registrationRequest (String.mk (rustTrim line))) = some reg →
      authenticate env.auth = Except.ok c →
      (save_credentials env.resolve c env.fs).2 = Except.error ec →
      (run env).1 = Except.error (RunError.saveFailed ec)) ∧
    (∀ e, (run env).1 = Except.error e →
      mainEntry env = (run env).2 ++ [Event.loggedRunError e]) ∧
    (∀ ev, (run env).2.count ev ≤ 1) := by
  refine ⟨?_, ?_, ?_, ?_, ?_⟩
  · intro line hline hload hresp
    rcases run_cases env with ⟨c, hc, hrun⟩ | ⟨e, he, hs, hrun⟩ |
        ⟨e, line2, he, hs, hr, hrun⟩ | ⟨e, line2, reg2, ea2, he, hs, hr, ha, hrun⟩ |
        ⟨e, line2, reg2, c2, ec2, he, hs, hr, ha, hsv, hrun⟩ |
        ⟨e, line2, reg2, c2, he, hs, hr, ha, hsv, hrun⟩
    · rw [hc] at hload; simp [Except.isOk, Except.toBool] at hload
    · rw [hline] at hs; simp at hs
    · simp [hrun]
    · rw [hline] at hs; injection hs with hs2; subst hs2
      rw [hresp] at hr; simp at hr
    · rw [hline] at hs; injection hs with hs2; subst hs2
      rw [hresp] at hr; simp at hr
    · rw [hline] at hs; injection hs with hs2; subst hs2
      rw [hresp] at hr; simp at hr
  · intro line reg ea hline hload hresp hauth
    rcases run_cases env with ⟨c, hc, hrun⟩ | ⟨e, he, hs, hrun⟩ |
        ⟨e, line2, he, hs, hr, hrun⟩ | ⟨e, line2, reg2, ea2, he, hs, hr, ha, hrun⟩ |
        ⟨e, line2, reg2, c2, ec2, he, hs, hr, ha, hsv, hrun⟩ |
        ⟨e, line2, reg2, c2, he, hs, hr, ha, hsv, hrun⟩
    · rw [hc] at hload; simp [Except.isOk, Except.toBool] at hload
    · rw [hline] at hs; simp at hs
    · rw [hline] at hs; injection hs with hs2; subst hs2
      rw [hresp] at hr; simp at hr
    · rw [hauth] at ha; injection ha with ha2; subst ha2
      simp [hrun]
    · rw [hauth] at ha; simp at ha
    · rw [hauth] at ha; simp at ha
  · intro line reg c ec hline hload hresp hauth hsave
    rcases run_cases env with ⟨c2, hc, hrun⟩ | ⟨e, he, hs, hrun⟩ |
        ⟨e, line2, he, hs, hr, hrun⟩ | ⟨e, line2, reg2, ea2, he, hs, hr, ha, hrun⟩ |
        ⟨e, line2, reg2, c2, ec2, he, hs, hr, ha, hsv, hrun⟩ |
        ⟨e, line2, reg2, c2, he, hs, hr, ha, hsv, hrun⟩
    · rw [hc] at hload; simp [Except.isOk, Except.toBool] at hload
    · rw [hline] at hs; simp at hs
    · rw [hline] at hs; injection hs with hs2; subst hs2
      rw [hresp] at hr; simp at hr
    · rw [hauth] at ha; simp at ha
    · rw [hauth] at ha; injection ha with ha2; subst ha2
      rw [hsave] at hsv; injection hsv with hsv2; subst hsv2
      simp [hrun]
    · rw [hauth] at ha; injection ha with ha2; subst ha2
      rw [hsave] at hsv; simp at hsv
  · intro e he
    rcases hrx : run env with ⟨r, evs⟩
    rw [hrx] at he
    have hr2 : r = Except.error e := he
    subst hr2
    simp [mainEntry, hrx]
  · intro ev
    exact List.nodup_iff_count_le_one.mp (run_trace_nodup env) ev

/-- C5 witness: in the environment whose registration request fails, the
run aborts with the registration error. -/
theorem C5_witness :
    (run envRegFail).1 = Except.error RunError.registrationFailed :=
  (C5_bootstrap_errors_abort_without_retry envRegFail).1 ['m', 's', '\n'] rfl
    (by decide) rfl

/-- C9: in every run the credential file is read exactly once, at the very
start of the trace (before any network event), and written at most once;
a write happens only on the bootstrap path, after the initial load failed
and both registration and authentication succeeded. -/
theorem C9_file_read_once_write_once (env : RunEnv) :
    (run env).2.count Event.readCredFile = 1 ∧
    (run env).2.head? = some Event.readCredFile ∧
    (run env).2.count Event.writeCredFile ≤ 1 ∧
    (Event.writeCredFile ∈ (run env).2 →
      (load_credentials env.resolve env.fs).isOk = false ∧
      (∃ line reg, env.stdinLine = some line ∧
        env.respond (registrationRequest (String.mk (rustTrim line))) = some reg) ∧
      (authenticate env.auth).isOk = true) := by
  rcases run_cases env with ⟨c, hc, hrun⟩ | ⟨e, he, hs, hrun⟩ |
      ⟨e, line, he, hs, hr, hrun⟩ | ⟨e, line, reg, ea, he, hs, hr, ha, hrun⟩ |
      ⟨e, line, reg, c, ec, he, hs, hr, ha, hsv, hrun⟩ |
      ⟨e, line, reg, c, he, hs, hr, ha, hsv, hrun⟩
  · rcases runVerified_cases env [Event.readCredFile] with hv | hv | hv <;>
      refine ⟨?_, ?_, ?_, ?_⟩ <;>
      simp [hrun, hv, List.count_cons]
  · refine ⟨?_, ?_, ?_, ?_⟩ <;> simp [hrun, List.count_cons]
  · refine ⟨?_, ?_, ?_, ?_⟩ <;> simp [hrun, List.count_cons]
  · refine ⟨?_, ?_, ?_, ?_⟩ <;> simp [hrun, List.count_cons]
  · refine ⟨?_, ?_, ?_, fun _ => ⟨?_, ⟨line, reg, hs, hr⟩, ?_⟩⟩ <;>
      simp [hrun, List.count_cons, he, ha, Except.isOk, Except.toBool]
  · rcases runVerified_cases env
        [Event.readCredFile, Event.loggedLoadFailure e, Event.promptServer,
          Event.netRegister (String.mk (rustTrim line)), Event.netAuthenticate,
          Event.writeCredFile] with hv | hv | hv <;>
      refine ⟨?_, ?_, ?_, fun _ => ⟨?_, ⟨line, reg, hs, hr⟩, ?_⟩⟩ <;>
      simp [hrun, hv, List.count_cons, he, ha, Except.isOk, Except.toBool]

/-- C9 witness: on the environment that bootstraps successfully (where the
credential file does get written), the initial load had indeed failed. -/
theorem C9_witness :
    (load_credentials envBootstrapOk.resolve envBootstrapOk.fs).isOk = false :=
  ((C9_file_read_once_write_once envBootstrapOk).2.2.2 (by decide)).1

/-- Characters kept by `takeWhile` all satisfy the predicate. -/
theorem all_takeWhile (p : Char → Bool) (l : List Char) :
    (l.takeWhile p).all p = true := by
  rw [List.all_eq_true]
  intro x hx
  exact List.mem_takeWhile_imp hx

/-- Characters kept by `rtakeWhile` all satisfy the predicate. -/
theorem all_rtakeWhile (p : Char → Bool) (l : List Char) :
    (l.rtakeWhile p).all p = true := by
  show (l.reverse.takeWhile p).reverse.all p = true
  rw [List.all_reverse]
  exact all_takeWhile p l.reverse

/-- A list splits as its right-trim plus its trailing predicate run. -/
theorem rdropWhile_append_rtakeWhile (p : Char → Bool) (m : List Char) :
    m.rdropWhile p ++ m.rtakeWhile p = m := by
  show (m.reverse.dropWhile p).reverse ++ (m.reverse.takeWhile p).reverse = m
  rw [← List.reverse_append, List.takeWhile_append_dropWhile, List.reverse_reverse]

/-- The head surviving `dropWhile` does not satisfy the predicate. -/
theorem head?_dropWhile_false (p : Char → Bool) (l : List Char) (a : Char)
    (h : (l.dropWhile p).head? = some a) : p a = false := by
  induction l with
  | nil => simp [List.dropWhile] at h
  | cons x xs ih =>
    rw [List.dropWhile_cons] at h
    by_cases hp : p x
    · rw [if_pos hp] at h
      exact ih h
    · rw [if_neg hp] at h
      simp at h
      subst h
      simpa using hp

/-- A nonempty prefix has the same head as the whole list. -/
theorem prefix_head?_eq {l₁ l₂ : List Char} (h : l₁ <+: l₂) (hne : l₁ ≠ []) :
    l₂.head? = l₁.head? := by
  obtain ⟨t, ht⟩ := h
  subst ht
  cases l₁ with
  | nil => exact absurd rfl hne
  | cons a l => rfl

/-- C10: `get_server_name` succeeds with the stdin line trimmed of leading
and trailing Unicode whitespace: the line decomposes as whitespace ++
result ++ whitespace, the result carries no whitespace at either end, an
all-whitespace line (the newline is whitespace) yields the empty name
rather than an error, and the run registers against exactly this trimmed
name. -/
theorem C10_server_name_trimmed (line : List Char) :
    get_server_name (some line) = Except.ok (rustTrim line) ∧
    (∃ pre post, line = pre ++ rustTrim line ++ post ∧
      pre.all rustIsWhitespace = true ∧ post.all rustIsWhitespace = true) ∧
    (∀ a, (rustTrim line).head? = some a → rustIsWhitespace a = false) ∧
    (∀ a, (rustTrim line).getLast? = some a → rustIsWhitespace a = false) ∧
    (line.all rustIsWhitespace = true → rustTrim line = []) ∧
    rustIsWhitespace '\n' = true ∧
    (∀ (env : RunEnv) (name : String), env.stdinLine = some line →
      Event.netRegister name ∈ (run env).2 →
      name = String.mk (rustTrim line)) := by
  have htrim : rustTrim line
      = (line.dropWhile rustIsWhitespace).rdropWhile rustIsWhitespace := rfl
  refine ⟨rfl, ?_, ?_, ?_, ?_, by decide, ?_⟩
  · refine ⟨line.takeWhile rustIsWhitespace,
      (line.dropWhile rustIsWhitespace).rtakeWhile rustIsWhitespace,
      ?_, all_takeWhile rustIsWhitespace line,
      all_rtakeWhile rustIsWhitespace (line.dropWhile rustIsWhitespace)⟩
    conv_lhs => rw [← List.takeWhile_append_dropWhile rustIsWhitespace line,
      ← rdropWhile_append_rtakeWhile rustIsWhitespace
        (line.dropWhile rustIsWhitespace)]
    rw [htrim, List.append_assoc]
  · intro a ha
    rw [htrim] at ha
    have hne : (line.dropWhile rustIsWhitespace).rdropWhile rustIsWhitespace
        ≠ [] := by
      intro hnil
      rw [hnil] at ha
      simp at ha
    have hpre := List.rdropWhile_prefix rustIsWhitespace
      (line.dropWhile rustIsWhitespace)
    have hh := prefix_head?_eq hpre hne
    rw [← hh] at ha
    exact head?_dropWhile_false rustIsWhitespace line a ha
  · intro a ha
    rw [htrim] at ha
    have hne : (line.dropWhile rustIsWhitespace).rdropWhile rustIsWhitespace
        ≠ [] := by
      intro hnil
      rw [hnil] at ha
      simp at ha
    have hlast := List.rdropWhile_last_not rustIsWhitespace
      (line.dropWhile rustIsWhitespace) hne
    rw [List.getLast?_eq_getLast _ hne] at ha
    injection ha with ha2
    rw [← ha2]
    simpa using hlast
  · intro hall
    have hdrop : line.dropWhile rustIsWhitespace = [] := by
      rw [List.dropWhile_eq_nil_iff]
      intro x hx
      exact (List.all_eq_true.mp hall) x hx
    rw [htrim, hdrop]
    rfl
  · intro env name hline hmem
    rcases run_cases env with ⟨c, hc, hrun⟩ | ⟨e, he, hs, hrun⟩ |
        ⟨e, line2, he, hs, hr, hrun⟩ | ⟨e, line2, reg, ea, he, hs, hr, ha, hrun⟩ |
        ⟨e, line2, reg, c, ec, he, hs, hr, ha, hsv, hrun⟩ |
        ⟨e, line2, reg, c, he, hs, hr, ha, hsv, hrun⟩
    · rcases runVerified_cases env [Event.readCredFile] with hv | hv | hv <;>
        rw [hrun, hv] at hmem <;> simp at hmem
    · rw [hrun] at hmem
      simp at hmem
    · rw [hline] at hs; injection hs with hs2; subst hs2
      rw [hrun] at hmem
      simp at hmem
      exact hmem
    · rw [hline] at hs; injection hs with hs2; subst hs2
      rw [hrun] at hmem
      simp at hmem
      exact hmem
    · rw [hline] at hs; injection hs with hs2; subst hs2
      rw [hrun] at hmem
      simp at hmem
      exact hmem
    · rw [hline] at hs; injection hs with hs2; subst hs2
      rcases runVerified_cases env
          [Event.readCredFile, Event.loggedLoadFailure e, Event.promptServer,
            Event.netRegister (String.mk (rustTrim line)), Event.netAuthenticate,
            Event.writeCredFile] with hv | hv | hv <;>
        rw [hrun, hv] at hmem <;> simp at hmem <;> exact hmem

/-- C10 witness: an all-whitespace input line (a space plus the terminating
newline) trims to the empty server name. -/
theorem C10_witness : rustTrim [' ', '\n'] = [] :=
  (C10_server_name_trimmed [' ', '\n']).2.2.2.2.1 (by decide)

end SpikeMastodon
